import Mathlib

/-!
Verification of the django-anymail adapter pipeline against its
natural-language specification.

The Python sources are shallowly embedded: insertion-ordered Python dicts
become association lists with unique keys, fallible code returns `Except`
or `Option`, and each embedded function mirrors one Python function from
the repository (named after it where Lean allows).
-/

/-- decidable equality on `Except`, so that concrete runs of the embedded
fallible functions can be checked by `decide`. -/
instance exceptDecEq {ε α : Type} [DecidableEq ε] [DecidableEq α] :
    DecidableEq (Except ε α) := fun x y =>
  match x, y with
  | .ok a, .ok b =>
    if h : a = b then isTrue (by rw [h])
    else isFalse (fun hc => h (Except.ok.inj hc))
  | .error a, .error b =>
    if h : a = b then isTrue (by rw [h])
    else isFalse (fun hc => h (Except.error.inj hc))
  | .ok _, .error _ => isFalse (fun hc => Except.noConfusion hc)
  | .error _, .ok _ => isFalse (fun hc => Except.noConfusion hc)

namespace Anymail

/-- insertion-ordered Python-dict assignment `d[k] = v`: if the key is
already present its value is replaced in place (keeping its position),
otherwise the pair is appended at the end. -/
def dictSet {α : Type} : List (String × α) → String → α → List (String × α)
  | [], k, v => [(k, v)]
  | (a, b) :: t, k, v => if a = k then (k, v) :: t else (a, b) :: dictSet t k v

/-- Python `d.copy(); d.update(e)` over insertion-ordered dicts: keys of `e`
are assigned into `d` left to right (existing keys keep their position and
take `e`'s value, new keys are appended). -/
def dictUpdate {α : Type} (d e : List (String × α)) : List (String × α) :=
  e.foldl (fun acc kv => dictSet acc kv.1 kv.2) d

theorem dictSet_lookup_self {α : Type} (d : List (String × α)) (k : String) (v : α) :
    (dictSet d k v).lookup k = some v := by
  induction d with
  | nil => simp [dictSet, List.lookup]
  | cons hd t ih =>
    obtain ⟨a, b⟩ := hd
    by_cases hak : a = k
    · simp [dictSet, hak, List.lookup]
    · simp only [dictSet, if_neg hak, List.lookup]
      have : (k == a) = false := by
        simp [beq_iff_eq]
        exact fun h => hak h.symm
      simp [this, ih]

theorem dictSet_lookup_ne {α : Type} (d : List (String × α)) (k k2 : String) (v : α)
    (hne : k2 ≠ k) : (dictSet d k v).lookup k2 = d.lookup k2 := by
  have hbeq : (k2 == k) = false := beq_eq_false_iff_ne.mpr hne
  induction d with
  | nil => simp [dictSet, List.lookup, hbeq]
  | cons hd t ih =>
    obtain ⟨a, b⟩ := hd
    by_cases hak : a = k
    · subst hak
      simp [dictSet, List.lookup, hbeq]
    · simp only [dictSet, if_neg hak, List.lookup]
      cases hba : (k2 == a) <;> simp [ih]

theorem foldl_dictSet_cons {α : Type} (x : String × α) (t : List (String × α))
    (hx : ∀ p ∈ t, p.1 ≠ x.1) (d : List (String × α)) :
    t.foldl (fun acc kv => dictSet acc kv.1 kv.2) (x :: d)
      = x :: t.foldl (fun acc kv => dictSet acc kv.1 kv.2) d := by
  induction t generalizing d with
  | nil => rfl
  | cons p t2 ih =>
    have hp : p.1 ≠ x.1 := hx p (List.mem_cons_self p t2)
    have hx2 : ∀ q ∈ t2, q.1 ≠ x.1 := fun q hq => hx q (List.mem_cons_of_mem p hq)
    have hstep : dictSet (x :: d) p.1 p.2 = x :: dictSet d p.1 p.2 := by
      obtain ⟨a, b⟩ := x
      simp only [dictSet]
      rw [if_neg]
      exact fun h => hp h.symm
    simp only [List.foldl_cons, hstep]
    exact ih hx2 (dictSet d p.1 p.2)

/-- updating an empty dict with a dict whose keys are distinct reproduces
that dict unchanged (real Python dicts always have distinct keys). -/
theorem dictUpdate_nil_of_nodup {α : Type} (e : List (String × α))
    (hnd : (e.map Prod.fst).Nodup) : dictUpdate [] e = e := by
  induction e with
  | nil => rfl
  | cons x t ih =>
    simp only [List.map_cons, List.nodup_cons, List.mem_map] at hnd
    obtain ⟨hx, hnd2⟩ := hnd
    have hx2 : ∀ p ∈ t, p.1 ≠ x.1 := by
      intro p hp heq
      exact hx ⟨p, hp, heq⟩
    show (x :: t).foldl (fun acc kv => dictSet acc kv.1 kv.2) [] = x :: t
    simp only [List.foldl_cons]
    have hsingle : dictSet ([] : List (String × α)) x.1 x.2 = [x] := by
      obtain ⟨a, b⟩ := x; rfl
    rw [hsingle]
    rw [foldl_dictSet_cons x t hx2 []]
    exact congrArg (List.cons x) (ih hnd2)

end Anymail

namespace AnymailUtils

/-- Python values flowing through `anymail.utils.combine` / `last`: the
`UNSET` sentinel, `None`, dict-like mappings, list-like sequences, and
plain scalars.  Dict values are flattened to `Int` payloads; the merge
algebra does not depend on the payload type. -/
inductive PyVal where
  | unset
  | pynone
  | pydict (d : List (String × Int))
  | pylist (xs : List Int)
  | scalar (n : Int)
deriving DecidableEq, Repr

/-- the `result.update(value)` / `result = result + value` step of
`combine` for an already-accumulated non-UNSET `result`: dicts shallow
merge, sequences concatenate, scalars add; mismatched shapes raise in
Python (TypeError, uncaught by `combine`), modelled as `none`. -/
def updateOrConcat : PyVal → PyVal → Option PyVal
  | .pydict d, .pydict e => some (.pydict (Anymail.dictUpdate d e))
  | .pydict _, _ => none
  | .pylist a, .pylist b => some (.pylist (a ++ b))
  | .pylist _, _ => none
  | .scalar a, .scalar b => some (.scalar (a + b))
  | _, _ => none

/-- the accumulation loop of `anymail.utils.combine`: `None` resets the
accumulator to UNSET, UNSET args are skipped, the first real value is
copied in, later real values are merged via `updateOrConcat`. -/
def combineLoop : PyVal → List PyVal → Option PyVal
  | result, [] => some result
  | result, value :: rest =>
    match value with
    | .unset => combineLoop result rest
    | .pynone => combineLoop .unset rest
    | v =>
      match result with
      | .unset => combineLoop v rest
      | r =>
        match updateOrConcat r v with
        | some merged => combineLoop merged rest
        | none => none

/-- `anymail.utils.combine(*args)`; `none` models an uncaught Python
TypeError from merging mismatched shapes. -/
def combine (args : List PyVal) : Option PyVal := combineLoop .unset args

/-- the reversed-iteration body of `anymail.utils.last`: first arg (in
reversed order) that is not UNSET decides; `None` yields UNSET. -/
def lastLoop : List PyVal → PyVal
  | [] => .unset
  | value :: rest =>
    match value with
    | .pynone => .unset
    | .unset => lastLoop rest
    | v => v

/-- `anymail.utils.last(*args)`: the last arg that is not UNSET, where an
explicit `None` suppresses everything before it. -/
def last (args : List PyVal) : PyVal := lastLoop args.reverse

end AnymailUtils

namespace AnymailBase

/-- outcome of `AnymailBaseBackend._send(message)` for one message:
returned True, returned False (message had no recipients), raised an
exception derived from AnymailError, or raised any other exception. -/
inductive SendOutcome where
  | sent
  | notSent
  | anymailError
  | otherError
deriving DecidableEq, Repr

/-- exception escaping the `send_messages` loop. -/
inductive SendAbort where
  | anymail
  | other
deriving DecidableEq, Repr

/-- the per-message loop of `AnymailBaseBackend.send_messages`: each
message's `_send` either counts toward `num_sent`, counts 0, or raises; an
AnymailError is swallowed (counting 0) when `fail_silently` is set,
otherwise it propagates; any other exception always propagates. -/
def sendLoop (fail_silently : Bool) : List SendOutcome → Nat → Except SendAbort Nat
  | [], num_sent => .ok num_sent
  | message :: rest, num_sent =>
    match message with
    | .sent => sendLoop fail_silently rest (num_sent + 1)
    | .notSent => sendLoop fail_silently rest num_sent
    | .anymailError =>
      if fail_silently then sendLoop fail_silently rest num_sent
      else .error .anymail
    | .otherError => .error .other

/-- `AnymailBaseBackend.send_messages(email_messages)`, with each message
abstracted by its `_send` outcome. -/
def send_messages (fail_silently : Bool) (email_messages : List SendOutcome) :
    Except SendAbort Nat :=
  sendLoop fail_silently email_messages 0

/-- Python values handed to `json.dumps` when serializing a payload: the
JSON-representable shapes plus opaque objects (carrying their Python type
name) that `json.dumps` rejects with a TypeError. -/
inductive PyJson where
  | null
  | bool (b : Bool)
  | num (n : Int)
  | str (s : String)
  | arr (xs : List PyJson)
  | obj (fields : List (String × PyJson))
  | unserializable (typeName : String)

/-- JSON string escaping for the two characters our model treats
specially; other characters pass through unchanged. -/
def jsonEscape (s : String) : String :=
  String.join (s.toList.map fun c =>
    if c = '"' then "\\\"" else if c = '\\' then "\\\\" else String.singleton c)

mutual

/-- Python `json.dumps(payload)`: renders JSON text, or raises TypeError
(the `.error` case, carrying the TypeError message) on the first value
that is not JSON serializable. -/
def dumps : PyJson → Except String String
  | .null => .ok "null"
  | .bool true => .ok "true"
  | .bool false => .ok "false"
  | .num n => .ok (toString n)
  | .str s => .ok ("\"" ++ jsonEscape s ++ "\"")
  | .arr xs => (dumpsList xs).map (fun body => "[" ++ body ++ "]")
  | .obj fields => (dumpsFields fields).map (fun body => "\x7b" ++ body ++ "\x7d")
  | .unserializable typeName =>
    .error ("Object of type " ++ typeName ++ " is not JSON serializable")

/-- renders the comma-separated items of a JSON array, failing on the
first unserializable item. -/
def dumpsList : List PyJson → Except String String
  | [] => .ok ""
  | x :: rest => do
    let sx ← dumps x
    let srest ← dumpsList rest
    pure (if rest.isEmpty then sx else sx ++ ", " ++ srest)

/-- renders the comma-separated `"key": value` members of a JSON object,
failing on the first unserializable value. -/
def dumpsFields : List (String × PyJson) → Except String String
  | [] => .ok ""
  | (k, v) :: rest => do
    let sv ← dumps v
    let srest ← dumpsFields rest
    pure (if rest.isEmpty then "\"" ++ jsonEscape k ++ "\": " ++ sv
          else "\"" ++ jsonEscape k ++ "\": " ++ sv ++ ", " ++ srest)

end

mutual

/-- a payload value contains a leaf `json.dumps` cannot represent. -/
def hasUnserializable : PyJson → Bool
  | .null | .bool _ | .num _ | .str _ => false
  | .arr xs => hasUnserializableList xs
  | .obj fields => hasUnserializableFields fields
  | .unserializable _ => true

/-- some item of the list contains an unserializable leaf. -/
def hasUnserializableList : List PyJson → Bool
  | [] => false
  | x :: rest => hasUnserializable x || hasUnserializableList rest

/-- some field value contains an unserializable leaf. -/
def hasUnserializableFields : List (String × PyJson) → Bool
  | [] => false
  | (_, v) :: rest => hasUnserializable v || hasUnserializableFields rest

end

/-- `anymail.exceptions.AnymailSerializationError` as raised by
`serialize_payload`: wraps the original encoding error together with the
email message and the payload being serialized. -/
structure AnymailSerializationError where
  orig_err : String
  email_message : String
  payload : PyJson

/-- `AnymailRequestsBackend.serialize_payload(payload, message)`: returns
`json.dumps(payload)`, converting a TypeError from the encoder into an
AnymailSerializationError carrying the original error, the message and
the payload. -/
def serialize_payload (payload : PyJson) (message : String) :
    Except AnymailSerializationError String :=
  match dumps payload with
  | .ok s => .ok s
  | .error err =>
    .error { orig_err := err, email_message := message, payload := payload }

/-- the arguments of the one blocking HTTP call `self.session.post(...)`
issued by `AnymailRequestsBackend.post_to_esp`: the endpoint url, the
serialized body, and the timeout passed to requests (`none` when no
timeout argument is given, in which case requests waits indefinitely). -/
structure EspPostCall where
  url : String
  data : String
  timeout : Option Nat
deriving DecidableEq, Repr

/-- `AnymailRequestsBackend.post_to_esp(payload, message)` up to the HTTP
call: serializes the payload and issues `self.session.post(api_url,
data=post_data)` — url and body only, no timeout argument. -/
def post_to_esp (api_url : String) (payload : PyJson) (message : String) :
    Except AnymailSerializationError EspPostCall := do
  let post_data ← serialize_payload payload message
  pure { url := api_url, data := post_data, timeout := none }

end AnymailBase

namespace Mandrill

/-- exception raised by `MandrillBackend.validate_response`. -/
inductive ValidateError where
  | recipientsRefused
deriving DecidableEq, Repr

/-- Python `set` equality between the set of elements of `u` and of `t`,
for `set(u) == set(t)` over string lists. -/
def setEq (u t : List String) : Bool :=
  decide ((∀ s ∈ u, s ∈ t) ∧ ∀ s ∈ t, s ∈ u)

/-- Python `set(u).issubset(set(t))` over string lists. -/
def setSubset (u t : List String) : Bool :=
  decide (∀ s ∈ u, s ∈ t)

/-- `MandrillBackend.validate_response`, applied to the per-recipient
`status` strings extracted from the parsed Mandrill send response
(`item["status"]` for each item).  Forms the set of unique statuses and
classifies: all "sent", all "queued", all within invalid/rejected
(raising AnymailRecipientsRefused unless `ignore_recipient_status` is
configured), else the mixed aggregate "multi". -/
def validate_response (ignore_recipient_status : Bool) (statuses : List String) :
    Except ValidateError String :=
  let unique_statuses := statuses.dedup
  if setEq unique_statuses ["sent"] then .ok "sent"
  else if setEq unique_statuses ["queued"] then .ok "queued"
  else if setSubset unique_statuses ["invalid", "rejected"] then
    if ignore_recipient_status then .ok "refused"
    else .error .recipientsRefused
  else .ok "multi"

end Mandrill

namespace Anymail

/-- `anymail.exceptions.AnymailUnsupportedFeature`, raised by
`Payload.unsupported_feature(feature)` with message
"<ESP name> does not support <feature>". -/
structure UnsupportedFeature where
  message : String
deriving DecidableEq, Repr

end Anymail

namespace Postmark

/-- values stored in the Postmark payload's `data` dict: JSON strings, or
the nested string-valued object used for `TemplateModel`. -/
inductive PMVal where
  | str (s : String)
  | dict (d : List (String × String))
deriving DecidableEq, Repr

/-- one parsed `to` recipient as kept in `PostmarkPayload.to_emails`:
`address` is the full display form, `addr_spec` the bare email used as
the `merge_data` key. -/
structure ToEmail where
  address : String
  addr_spec : String
deriving DecidableEq, Repr

/-- the `PostmarkPayload` state consulted by `get_api_endpoint`,
`serialize_data` and `data_for_recipient`: the accumulated `data` dict,
the `to` recipient list, and the late-bound `merge_data`
(`none` when the message has no merge_data attribute). -/
structure PostmarkPayload where
  data : List (String × PMVal)
  to_emails : List ToEmail
  merge_data : Option (List (String × List (String × String)))
deriving DecidableEq, Repr

/-- `PostmarkPayload.get_api_endpoint`: batch send requires merge_data to
be present (not None) and more than one `to` recipient; template sends
(TemplateId or TemplateModel in data) use the withTemplate endpoints. -/
def PostmarkPayload.get_api_endpoint (p : PostmarkPayload) : String :=
  let batch_send := p.merge_data.isSome && decide (p.to_emails.length > 1)
  if ((p.data.lookup "TemplateId").isSome || (p.data.lookup "TemplateModel").isSome) then
    if batch_send then "email/batchWithTemplates" else "email/withTemplate/"
  else
    if batch_send then "email/batch" else "email"

/-- `PostmarkPayload.data_for_recipient(to)`: copies the payload data,
overwrites "To" with this recipient's address, and — when merge_data is
truthy (non-None and nonempty) and has an entry for this recipient —
stores that entry as TemplateModel, shallow-merged over the existing
TemplateModel (the merge_global_data) when one is present.  (In payloads
built by the backend a present TemplateModel is always a dict, set by
`set_merge_global_data`; a non-dict value would make Python's
`.copy()`/`.update` raise and is mapped like the absent case here.) -/
def PostmarkPayload.data_for_recipient (p : PostmarkPayload) (recip : ToEmail) :
    List (String × PMVal) :=
  let data := Anymail.dictSet p.data "To" (.str recip.address)
  match p.merge_data with
  | none => data
  | some md =>
    if md ≠ [] ∧ (md.lookup recip.addr_spec).isSome then
      let recipient_data := (md.lookup recip.addr_spec).getD []
      match data.lookup "TemplateModel" with
      | some (.dict tm) =>
        Anymail.dictSet data "TemplateModel" (.dict (Anymail.dictUpdate tm recipient_data))
      | _ => Anymail.dictSet data "TemplateModel" (.dict recipient_data)
    else data

/-- shape of the request body produced by `PostmarkPayload.serialize_data`
before JSON encoding: the single `data` dict, the
`{"Messages": [...]}` wrapper used by email/batchWithTemplates, or the
bare array used by email/batch. -/
inductive PostmarkBody where
  | single (data : List (String × PMVal))
  | messages (msgs : List (List (String × PMVal)))
  | batch (msgs : List (List (String × PMVal)))
deriving DecidableEq, Repr

/-- `PostmarkPayload.serialize_data` up to JSON encoding: on the batch
endpoints, fans out to one `data_for_recipient` body per `to` recipient
(in `to_emails` order); otherwise serializes `data` as is. -/
def PostmarkPayload.serialize_data (p : PostmarkPayload) : PostmarkBody :=
  if p.get_api_endpoint = "email/batchWithTemplates" then
    .messages (p.to_emails.map p.data_for_recipient)
  else if p.get_api_endpoint = "email/batch" then
    .batch (p.to_emails.map p.data_for_recipient)
  else
    .single p.data

/-- `PostmarkPayload.set_html_body`: raises AnymailUnsupportedFeature
("Postmark does not support multiple html parts") when an HtmlBody was
already recorded, otherwise stores the body under "HtmlBody". -/
def PostmarkPayload.set_html_body (p : PostmarkPayload) (body : String) :
    Except Anymail.UnsupportedFeature PostmarkPayload :=
  if (p.data.lookup "HtmlBody").isSome then
    .error ⟨"Postmark does not support multiple html parts"⟩
  else
    .ok { p with data := Anymail.dictSet p.data "HtmlBody" (.str body) }

/-- a `PostmarkPayload` as produced by the backend's builder sequence for
the fields relevant to merge handling: `base` is the data accumulated by
the other setters (never containing a TemplateModel), then
`set_merge_global_data` stores the global data as TemplateModel (when the
message has merge_global_data), `set_recipients` records the `to` list
and `set_merge_data` late-binds merge_data. -/
def mkPostmarkPayload (base : List (String × PMVal))
    (merge_global_data : Option (List (String × String)))
    (merge_data : Option (List (String × List (String × String))))
    (tos : List ToEmail) : PostmarkPayload :=
  { data :=
      match merge_global_data with
      | some g => Anymail.dictSet base "TemplateModel" (.dict g)
      | none => base
    to_emails := tos
    merge_data := merge_data }

end Postmark

namespace Mailgun

/-- the `MailgunPayload` state relevant to body handling: the accumulated
`data` form fields (string-valued here; only the "html" key matters for
the html-body protocol). -/
structure MailgunPayload where
  data : List (String × String)
deriving DecidableEq, Repr

/-- `MailgunPayload.set_html_body`: raises AnymailUnsupportedFeature
("Mailgun does not support multiple html parts") when an html part was
already recorded, otherwise stores the body under "html". -/
def MailgunPayload.set_html_body (p : MailgunPayload) (body : String) :
    Except Anymail.UnsupportedFeature MailgunPayload :=
  if (p.data.lookup "html").isSome then
    .error ⟨"Mailgun does not support multiple html parts"⟩
  else
    .ok { p with data := Anymail.dictSet p.data "html" body }

end Mailgun

namespace Mailjet

/-- canonical Anymail tracking event types (`anymail.signals.EventType`;
that module is not under src/, so the vocabulary is taken from the spec's
closed list — only the constructors are needed here). -/
inductive EventType where
  | queued | sent | delivered | deferred | bounced | rejected | complained
  | unsubscribed | opened | clicked | failed | unknown
deriving DecidableEq, Repr

/-- canonical Anymail reject reasons (`anymail.signals.RejectReason`;
vocabulary from the spec's closed list). -/
inductive RejectReason where
  | bounced | blocked | spam | unsubscribed | invalid | timed_out | other
deriving DecidableEq, Repr

/-- `MailjetTrackingWebhookView.event_types`: static table mapping Mailjet
event names to canonical Anymail event types. -/
def event_types : List (String × EventType) :=
  [("sent", .delivered),
   ("open", .opened),
   ("click", .clicked),
   ("bounce", .bounced),
   ("blocked", .rejected),
   ("spam", .complained),
   ("unsub", .unsubscribed)]

/-- `MailjetTrackingWebhookView.reject_reasons`: static table mapping
Mailjet error strings to canonical Anymail reject reasons. -/
def reject_reasons : List (String × RejectReason) :=
  [("user unknown", .bounced),
   ("mailbox inactive", .bounced),
   ("quota exceeded", .bounced),
   ("blacklisted", .blocked),
   ("spam reporter", .spam),
   ("invalid domain", .bounced),
   ("no mail host", .bounced),
   ("relay/access denied", .bounced),
   ("greylisted", .other),
   ("typofix", .invalid),
   ("sender blocked", .blocked),
   ("content blocked", .blocked),
   ("policy issue", .blocked),
   ("preblocked", .blocked),
   ("duplicate in campaign", .other)]

/-- the fields of a raw Mailjet webhook event record consulted by the
event-type and reject-reason logic of `esp_to_anymail_event`: the
required `event` name, the optional `error` string (`none` when the key
is absent) and the optional `hard_bounce` flag (`none` when absent;
Python reads it with `.get('hard_bounce', False)`). -/
structure MailjetEvent where
  event : String
  error : Option String
  hard_bounce : Option Bool
deriving DecidableEq, Repr

/-- the `event_type` computation of
`MailjetTrackingWebhookView.esp_to_anymail_event`: table lookup defaulting
to UNKNOWN, then the greylisted special case (a temporary error, delivery
will be re-attempted) overrides the result with DEFERRED. -/
def eventTypeOf (esp_event : MailjetEvent) : EventType :=
  let event_type := (event_types.lookup esp_event.event).getD EventType.unknown
  if esp_event.error = some "greylisted" ∧ esp_event.hard_bounce.getD false = false then
    EventType.deferred
  else event_type

/-- the `reject_reason` computation of
`MailjetTrackingWebhookView.esp_to_anymail_event`: when an `error` key is
present, table lookup defaulting to OTHER; otherwise no reject reason. -/
def rejectReasonOf (esp_event : MailjetEvent) : Option RejectReason :=
  match esp_event.error with
  | some err => some ((reject_reasons.lookup err).getD RejectReason.other)
  | none => none

end Mailjet

/-- a successful association-list lookup comes from a pair of the list. -/
theorem Anymail.lookup_mem {α : Type} {l : List (String × α)} {k : String} {v : α}
    (h : l.lookup k = some v) : (k, v) ∈ l := by
  induction l with
  | nil => simp [List.lookup] at h
  | cons hd t ih =>
    obtain ⟨a, b⟩ := hd
    simp only [List.lookup] at h
    cases hka : (k == a) with
    | true =>
      rw [hka] at h
      obtain rfl : b = v := by simpa using h
      obtain rfl : k = a := by simpa using hka
      exact List.mem_cons_self _ _
    | false =>
      rw [hka] at h
      exact List.mem_cons_of_mem _ (ih h)

/-- C9: an empty parsed Mandrill send response (a 200 response naming no
recipients) yields an empty status set, which passes the
subset-of-invalid/rejected test: validate_response raises
AnymailRecipientsRefused, or returns "refused" when
ignore-recipient-status is configured — never "sent", "queued" or
"multi". -/
theorem c9_empty_response_refused :
    Mandrill.validate_response false [] = .error .recipientsRefused ∧
    Mandrill.validate_response true [] = .ok "refused" := by
  decide

/-- C10: a Mailjet webhook record whose error is "greylisted" and whose
hard_bounce is absent or false parses with event_type deferred regardless
of its event name (overriding the static event-type table), and its
reject_reason maps to other. -/
theorem c10_greylisted_override (e : Mailjet.MailjetEvent)
    (herr : e.error = some "greylisted") (hhb : e.hard_bounce.getD false = false) :
    Mailjet.eventTypeOf e = .deferred ∧ Mailjet.rejectReasonOf e = some .other := by
  constructor
  · unfold Mailjet.eventTypeOf
    rw [if_pos ⟨herr, hhb⟩]
  · unfold Mailjet.rejectReasonOf
    rw [herr]
    decide

/-- concrete run of `c10_greylisted_override`: an unmapped event name with
a greylisted error and no hard_bounce parses as deferred / other. -/
theorem c10_greylisted_override_witness :
    Mailjet.eventTypeOf ⟨"bogus", some "greylisted", none⟩ = .deferred ∧
    Mailjet.rejectReasonOf ⟨"bogus", some "greylisted", none⟩ = some .other :=
  c10_greylisted_override ⟨"bogus", some "greylisted", none⟩ rfl rfl

/-- C5: the attribute-resolver algebra — an explicit None argument
discards everything accumulated before it (`combine(default, None,
message) = combine(message)`), `last(a, b, UNSET)` returns `b` whenever
`b` is neither UNSET nor None, and `combine()` / `last()` with no
non-absent arguments return the UNSET sentinel rather than raising. -/
theorem c5_resolver_algebra :
    (∀ d m : AnymailUtils.PyVal,
      AnymailUtils.combine [d, .pynone, m] = AnymailUtils.combine [m]) ∧
    (∀ a b : AnymailUtils.PyVal, b ≠ .unset → b ≠ .pynone →
      AnymailUtils.last [a, b, .unset] = b) ∧
    AnymailUtils.combine [] = some .unset ∧
    AnymailUtils.last [] = .unset := by
  refine ⟨?_, ?_, rfl, rfl⟩
  · intro d m
    cases d <;> rfl
  · intro a b hb1 hb2
    cases b
    · exact absurd rfl hb1
    · exact absurd rfl hb2
    all_goals rfl

/-- concrete run of `c5_resolver_algebra`: a None between two dicts makes
only the later one count, and `last` picks a concrete non-absent `b`. -/
theorem c5_resolver_algebra_witness :
    AnymailUtils.combine [.pydict [("a", 1)], .pynone, .pydict [("b", 2)]]
      = AnymailUtils.combine [.pydict [("b", 2)]] ∧
    AnymailUtils.last [.scalar 1, .scalar 2, .unset] = .scalar 2 :=
  ⟨c5_resolver_algebra.1 (.pydict [("a", 1)]) (.pydict [("b", 2)]),
   c5_resolver_algebra.2.1 (.scalar 1) (.scalar 2) (by decide) (by decide)⟩

/-- C7: on any payload that has no HTML body yet, the first
`set_html_body` call succeeds and records the body, and a second call on
the result (e.g. via an alternative part) raises
AnymailUnsupportedFeature instead of overwriting — for both the Mailgun
and the Postmark payloads. -/
theorem c7_html_body_set_once
    (mp : Mailgun.MailgunPayload) (pp : Postmark.PostmarkPayload) (b1 b2 : String)
    (hm : mp.data.lookup "html" = none)
    (hp : pp.data.lookup "HtmlBody" = none) :
    (∃ mp2, mp.set_html_body b1 = .ok mp2 ∧
      mp2.data.lookup "html" = some b1 ∧
      mp2.set_html_body b2 = .error ⟨"Mailgun does not support multiple html parts"⟩) ∧
    (∃ pp2, pp.set_html_body b1 = .ok pp2 ∧
      pp2.data.lookup "HtmlBody" = some (.str b1) ∧
      pp2.set_html_body b2 = .error ⟨"Postmark does not support multiple html parts"⟩) := by
  constructor
  · refine ⟨⟨Anymail.dictSet mp.data "html" b1⟩, ?_, ?_, ?_⟩
    · simp [Mailgun.MailgunPayload.set_html_body, hm]
    · exact Anymail.dictSet_lookup_self mp.data "html" b1
    · simp [Mailgun.MailgunPayload.set_html_body, Anymail.dictSet_lookup_self]
  · refine ⟨{ pp with data := Anymail.dictSet pp.data "HtmlBody" (.str b1) }, ?_, ?_, ?_⟩
    · simp [Postmark.PostmarkPayload.set_html_body, hp]
    · exact Anymail.dictSet_lookup_self pp.data "HtmlBody" (.str b1)
    · simp [Postmark.PostmarkPayload.set_html_body, Anymail.dictSet_lookup_self]

/-- concrete run of `c7_html_body_set_once` on fresh payloads. -/
theorem c7_html_body_set_once_witness :
    (∃ mp2, (Mailgun.MailgunPayload.mk []).set_html_body "<p>one</p>" = .ok mp2 ∧
      mp2.data.lookup "html" = some "<p>one</p>" ∧
      mp2.set_html_body "<p>two</p>"
        = .error ⟨"Mailgun does not support multiple html parts"⟩) ∧
    (∃ pp2, (Postmark.PostmarkPayload.mk [] [] none).set_html_body "<p>one</p>" = .ok pp2 ∧
      pp2.data.lookup "HtmlBody" = some (.str "<p>one</p>") ∧
      pp2.set_html_body "<p>two</p>"
        = .error ⟨"Postmark does not support multiple html parts"⟩) :=
  c7_html_body_set_once ⟨[]⟩ ⟨[], [], none⟩ "<p>one</p>" "<p>two</p>" rfl rfl

/-- refutation of C4 as stated: at a concrete send, the blocking HTTP
POST built by `post_to_esp` carries no timeout at all — its timeout
argument is `none` (requests then waits indefinitely), so no finite
timeout is issued. -/
theorem c4_counterexample :
    ∃ req : AnymailBase.EspPostCall,
      AnymailBase.post_to_esp "https://mandrillapp.com/api/1.0/messages/send.json"
          (.obj [("key", .str "k")]) "message" = .ok req ∧
      req.timeout = none ∧ ∀ t : Nat, req.timeout ≠ some t := by
  refine ⟨⟨"https://mandrillapp.com/api/1.0/messages/send.json",
    "\x7b\"key\": \"k\"\x7d", none⟩, rfl, rfl, ?_⟩
  intro t h
  exact Option.noConfusion h

/-- C4 (amended): every blocking HTTP POST that `post_to_esp` issues uses
the requested endpoint url and the serialized payload, and passes no
timeout to the HTTP library (requests' default: wait indefinitely) — the
code provides no finite-timeout guarantee. -/
theorem c4_amended_no_timeout (api_url : String) (payload : AnymailBase.PyJson)
    (message : String) (req : AnymailBase.EspPostCall)
    (h : AnymailBase.post_to_esp api_url payload message = .ok req) :
    req.url = api_url ∧ req.timeout = none := by
  unfold AnymailBase.post_to_esp at h
  cases hs : AnymailBase.serialize_payload payload message with
  | error e =>
    rw [hs] at h
    exact absurd h (by simp [Bind.bind, Except.bind])
  | ok s =>
    rw [hs] at h
    simp only [Bind.bind, Except.bind, pure, Except.pure] at h
    obtain rfl := Except.ok.inj h
    exact ⟨rfl, rfl⟩

/-- concrete run of `c4_amended_no_timeout`. -/
theorem c4_amended_no_timeout_witness :
    (⟨"https://api.postmarkapp.com/email", "\x7b\x7d", none⟩ :
        AnymailBase.EspPostCall).url = "https://api.postmarkapp.com/email" ∧
    (⟨"https://api.postmarkapp.com/email", "\x7b\x7d", none⟩ :
        AnymailBase.EspPostCall).timeout = none :=
  c4_amended_no_timeout "https://api.postmarkapp.com/email" (.obj []) "message"
    ⟨"https://api.postmarkapp.com/email", "\x7b\x7d", none⟩ rfl

/-- refutation of C6 as stated: a record with an event name absent from
the static event-type table but with a greylisted error parses as
deferred, not unknown — the greylisted special case overrides the
unknown fallback. -/
theorem c6_counterexample :
    Mailjet.event_types.lookup "bogus" = none ∧
    Mailjet.eventTypeOf ⟨"bogus", some "greylisted", none⟩ = .deferred ∧
    Mailjet.EventType.deferred ≠ Mailjet.EventType.unknown := by
  decide

/-- C6 (amended): for every Mailjet webhook record whose event name is
absent from the static event-type table, the parsed event_type is
unknown — unless the greylisted override applies (error "greylisted" and
hard_bounce absent or false), in which case it is deferred; and whenever
an error string is present but absent from the static reject-reason
table, the parsed reject_reason is other.  No case raises. -/
theorem c6_amended_unknown_fallback (e : Mailjet.MailjetEvent) :
    (Mailjet.event_types.lookup e.event = none →
      ¬ (e.error = some "greylisted" ∧ e.hard_bounce.getD false = false) →
      Mailjet.eventTypeOf e = .unknown) ∧
    (Mailjet.event_types.lookup e.event = none →
      e.error = some "greylisted" ∧ e.hard_bounce.getD false = false →
      Mailjet.eventTypeOf e = .deferred) ∧
    (∀ err, e.error = some err → Mailjet.reject_reasons.lookup err = none →
      Mailjet.rejectReasonOf e = some .other) := by
  refine ⟨?_, ?_, ?_⟩
  · intro hev hno
    unfold Mailjet.eventTypeOf
    rw [if_neg hno, hev]
    rfl
  · intro _ hyes
    unfold Mailjet.eventTypeOf
    rw [if_pos hyes]
  · intro err herr hlk
    unfold Mailjet.rejectReasonOf
    rw [herr]
    simp only [hlk, Option.getD_none]

/-- concrete runs of `c6_amended_unknown_fallback`: an unmapped event
name with an unmapped error string parses as unknown / other, and a
mapped event name ("bounce") with a novel error string still gets
reject_reason other. -/
theorem c6_amended_unknown_fallback_witness :
    Mailjet.eventTypeOf ⟨"bogus", some "mystery", none⟩ = .unknown ∧
    Mailjet.rejectReasonOf ⟨"bogus", some "mystery", none⟩ = some .other ∧
    Mailjet.rejectReasonOf ⟨"bounce", some "some-new-code", none⟩ = some .other :=
  ⟨(c6_amended_unknown_fallback ⟨"bogus", some "mystery", none⟩).1 rfl (by decide),
   (c6_amended_unknown_fallback ⟨"bogus", some "mystery", none⟩).2.2 "mystery" rfl rfl,
   (c6_amended_unknown_fallback ⟨"bounce", some "some-new-code", none⟩).2.2
     "some-new-code" rfl rfl⟩

/-- with fail_silently set, a message whose send raises an AnymailError
contributes nothing to the count and the loop carries on exactly as if
the message were removed. -/
theorem AnymailBase.sendLoop_skip_anymail (pre post : List AnymailBase.SendOutcome)
    (n : Nat) :
    AnymailBase.sendLoop true (pre ++ .anymailError :: post) n
      = AnymailBase.sendLoop true (pre ++ post) n := by
  induction pre generalizing n with
  | nil => simp [AnymailBase.sendLoop]
  | cons m t ih =>
    cases m <;> simp [AnymailBase.sendLoop, ih]

/-- a non-Anymail exception propagates out of the loop (given that no
earlier message raises an AnymailError, which could itself abort first
when fail_silently is off). -/
theorem AnymailBase.sendLoop_other_propagates (fs : Bool)
    (pre post : List AnymailBase.SendOutcome) (n : Nat)
    (hpre : AnymailBase.SendOutcome.anymailError ∉ pre) :
    AnymailBase.sendLoop fs (pre ++ .otherError :: post) n = .error .other := by
  induction pre generalizing n with
  | nil => simp [AnymailBase.sendLoop]
  | cons m t ih =>
    have hm : m ≠ .anymailError := fun h => hpre (h ▸ List.mem_cons_self m t)
    have ht : AnymailBase.SendOutcome.anymailError ∉ t :=
      fun h => hpre (List.mem_cons_of_mem m h)
    cases m with
    | sent => simp [AnymailBase.sendLoop, ih _ ht]
    | notSent => simp [AnymailBase.sendLoop, ih _ ht]
    | anymailError => exact absurd rfl hm
    | otherError => simp [AnymailBase.sendLoop]

/-- with fail_silently set, the loop never aborts with an AnymailError. -/
theorem AnymailBase.sendLoop_silent_never_anymail
    (msgs : List AnymailBase.SendOutcome) (n : Nat) :
    AnymailBase.sendLoop true msgs n ≠ .error .anymail := by
  induction msgs generalizing n with
  | nil => simp [AnymailBase.sendLoop]
  | cons m t ih =>
    cases m with
    | sent => exact ih (n + 1)
    | notSent => exact ih n
    | anymailError => exact ih n
    | otherError => simp [AnymailBase.sendLoop]

/-- C2: during send_messages, an error on one message does not abort the
rest — with fail_silently, a message whose send raises an AnymailError
counts as 0 sent and the loop continues with the next message (the batch
result is exactly that of the batch without it, and the loop never
surfaces an AnymailError); exceptions not derived from AnymailError
always propagate, whatever fail_silently is. -/
theorem c2_send_messages_error_isolation (fs : Bool)
    (pre post : List AnymailBase.SendOutcome)
    (hpre : AnymailBase.SendOutcome.anymailError ∉ pre) :
    AnymailBase.send_messages true (pre ++ .anymailError :: post)
      = AnymailBase.send_messages true (pre ++ post) ∧
    AnymailBase.send_messages fs (pre ++ .otherError :: post) = .error .other ∧
    (∀ msgs, AnymailBase.send_messages true msgs ≠ .error .anymail) :=
  ⟨AnymailBase.sendLoop_skip_anymail pre post 0,
   AnymailBase.sendLoop_other_propagates fs pre post 0 hpre,
   fun msgs => AnymailBase.sendLoop_silent_never_anymail msgs 0⟩

/-- concrete run of `c2_send_messages_error_isolation` with
fail_silently off for the non-Anymail part. -/
theorem c2_send_messages_error_isolation_witness :
    AnymailBase.send_messages true ([.sent] ++ .anymailError :: [.notSent, .sent])
      = AnymailBase.send_messages true ([.sent] ++ [.notSent, .sent]) ∧
    AnymailBase.send_messages false ([.sent] ++ .otherError :: [.notSent, .sent])
      = .error .other ∧
    (∀ msgs, AnymailBase.send_messages true msgs ≠ .error .anymail) :=
  c2_send_messages_error_isolation false [.sent] [.notSent, .sent] (by decide)

/-- C3: when every per-recipient status in the parsed Mandrill response
is invalid or rejected, validate_response raises AnymailRecipientsRefused
unless ignore-recipient-status is configured (then it returns "refused");
when accepted (sent/queued) and refused (invalid/rejected) recipients are
mixed, it never raises and returns the aggregate "multi". -/
theorem c3_mandrill_refusal_policy (statuses : List String) :
    ((∀ s ∈ statuses, s = "invalid" ∨ s = "rejected") →
      Mandrill.validate_response false statuses = .error .recipientsRefused ∧
      Mandrill.validate_response true statuses = .ok "refused") ∧
    (∀ ignore, (∃ s ∈ statuses, s = "sent" ∨ s = "queued") →
      (∃ s ∈ statuses, s = "invalid" ∨ s = "rejected") →
      Mandrill.validate_response ignore statuses = .ok "multi") := by
  constructor
  · intro hall
    have hse : Mandrill.setEq statuses.dedup ["sent"] = false := by
      rw [Mandrill.setEq, decide_eq_false_iff_not]
      intro ⟨_, h2⟩
      have : "sent" ∈ statuses := List.mem_dedup.mp (h2 "sent" (by simp))
      rcases hall _ this with h | h <;> exact absurd h (by decide)
    have hqe : Mandrill.setEq statuses.dedup ["queued"] = false := by
      rw [Mandrill.setEq, decide_eq_false_iff_not]
      intro ⟨_, h2⟩
      have : "queued" ∈ statuses := List.mem_dedup.mp (h2 "queued" (by simp))
      rcases hall _ this with h | h <;> exact absurd h (by decide)
    have hsub : Mandrill.setSubset statuses.dedup ["invalid", "rejected"] = true := by
      rw [Mandrill.setSubset, decide_eq_true_eq]
      intro s hs
      rcases hall s (List.mem_dedup.mp hs) with h | h <;> simp [h]
    constructor <;>
      simp [Mandrill.validate_response, hse, hqe, hsub]
  · intro ignore ⟨s1, hs1m, hs1⟩ ⟨s2, hs2m, hs2⟩
    have hse : Mandrill.setEq statuses.dedup ["sent"] = false := by
      rw [Mandrill.setEq, decide_eq_false_iff_not]
      intro ⟨h1, _⟩
      have := h1 s2 (List.mem_dedup.mpr hs2m)
      simp only [List.mem_singleton] at this
      rcases hs2 with h | h <;> rw [h] at this <;> exact absurd this (by decide)
    have hqe : Mandrill.setEq statuses.dedup ["queued"] = false := by
      rw [Mandrill.setEq, decide_eq_false_iff_not]
      intro ⟨h1, _⟩
      have := h1 s2 (List.mem_dedup.mpr hs2m)
      simp only [List.mem_singleton] at this
      rcases hs2 with h | h <;> rw [h] at this <;> exact absurd this (by decide)
    have hsub : Mandrill.setSubset statuses.dedup ["invalid", "rejected"] = false := by
      rw [Mandrill.setSubset, decide_eq_false_iff_not]
      intro h1
      have := h1 s1 (List.mem_dedup.mpr hs1m)
      rcases hs1 with h | h <;> rw [h] at this <;>
        simp only [List.mem_cons, List.mem_singleton, List.not_mem_nil, or_false] at this <;>
        rcases this with h2 | h2 <;> exact absurd h2 (by decide)
    simp [Mandrill.validate_response, hse, hqe, hsub]

/-- concrete runs of `c3_mandrill_refusal_policy`: an all-refused
response raises (or returns "refused" under ignore-recipient-status),
and a mixed response returns "multi". -/
theorem c3_mandrill_refusal_policy_witness :
    (Mandrill.validate_response false ["invalid", "rejected"]
        = .error .recipientsRefused ∧
      Mandrill.validate_response true ["invalid", "rejected"] = .ok "refused") ∧
    Mandrill.validate_response false ["sent", "rejected"] = .ok "multi" :=
  ⟨(c3_mandrill_refusal_policy ["invalid", "rejected"]).1 (by decide),
   (c3_mandrill_refusal_policy ["sent", "rejected"]).2 false (by decide) (by decide)⟩

/-- whether an embedded fallible computation succeeded. -/
def AnymailBase.exceptOk {ε α : Type} : Except ε α → Bool
  | .ok _ => true
  | .error _ => false

theorem AnymailBase.exceptOk_map {ε α β : Type} (f : α → β) (e : Except ε α) :
    AnymailBase.exceptOk (e.map f) = AnymailBase.exceptOk e := by
  cases e <;> rfl

mutual

/-- `json.dumps` succeeds exactly on payloads with no unserializable
leaf. -/
theorem AnymailBase.dumps_exceptOk :
    ∀ p : AnymailBase.PyJson,
      AnymailBase.exceptOk (AnymailBase.dumps p) = !AnymailBase.hasUnserializable p
  | .null => rfl
  | .bool true => rfl
  | .bool false => rfl
  | .num _ => rfl
  | .str _ => rfl
  | .unserializable _ => rfl
  | .arr xs => by
    show AnymailBase.exceptOk ((AnymailBase.dumpsList xs).map _)
      = !AnymailBase.hasUnserializableList xs
    rw [AnymailBase.exceptOk_map]
    exact AnymailBase.dumpsList_exceptOk xs
  | .obj fields => by
    show AnymailBase.exceptOk ((AnymailBase.dumpsFields fields).map _)
      = !AnymailBase.hasUnserializableFields fields
    rw [AnymailBase.exceptOk_map]
    exact AnymailBase.dumpsFields_exceptOk fields

/-- array rendering succeeds exactly when no item is unserializable. -/
theorem AnymailBase.dumpsList_exceptOk :
    ∀ xs : List AnymailBase.PyJson,
      AnymailBase.exceptOk (AnymailBase.dumpsList xs)
        = !AnymailBase.hasUnserializableList xs
  | [] => rfl
  | x :: rest => by
    have hx := AnymailBase.dumps_exceptOk x
    have hr := AnymailBase.dumpsList_exceptOk rest
    simp only [AnymailBase.dumpsList, AnymailBase.hasUnserializableList]
    cases he : AnymailBase.dumps x with
    | error e =>
      rw [he] at hx
      have : AnymailBase.hasUnserializable x = true := by
        simpa [AnymailBase.exceptOk] using hx.symm
      simp [Bind.bind, Except.bind, AnymailBase.exceptOk, this]
    | ok sx =>
      rw [he] at hx
      have hxf : AnymailBase.hasUnserializable x = false := by
        simpa [AnymailBase.exceptOk] using hx.symm
      cases he2 : AnymailBase.dumpsList rest with
      | error e2 =>
        rw [he2] at hr
        have : AnymailBase.hasUnserializableList rest = true := by
          simpa [AnymailBase.exceptOk] using hr.symm
        simp [Bind.bind, Except.bind, AnymailBase.exceptOk, hxf, this]
      | ok s2 =>
        rw [he2] at hr
        have : AnymailBase.hasUnserializableList rest = false := by
          simpa [AnymailBase.exceptOk] using hr.symm
        simp [Bind.bind, Except.bind, pure, Except.pure, AnymailBase.exceptOk, hxf, this]

/-- object rendering succeeds exactly when no field value is
unserializable. -/
theorem AnymailBase.dumpsFields_exceptOk :
    ∀ fs : List (String × AnymailBase.PyJson),
      AnymailBase.exceptOk (AnymailBase.dumpsFields fs)
        = !AnymailBase.hasUnserializableFields fs
  | [] => rfl
  | (k, v) :: rest => by
    have hx := AnymailBase.dumps_exceptOk v
    have hr := AnymailBase.dumpsFields_exceptOk rest
    simp only [AnymailBase.dumpsFields, AnymailBase.hasUnserializableFields]
    cases he : AnymailBase.dumps v with
    | error e =>
      rw [he] at hx
      have : AnymailBase.hasUnserializable v = true := by
        simpa [AnymailBase.exceptOk] using hx.symm
      simp [Bind.bind, Except.bind, AnymailBase.exceptOk, this]
    | ok sx =>
      rw [he] at hx
      have hxf : AnymailBase.hasUnserializable v = false := by
        simpa [AnymailBase.exceptOk] using hx.symm
      cases he2 : AnymailBase.dumpsFields rest with
      | error e2 =>
        rw [he2] at hr
        have : AnymailBase.hasUnserializableFields rest = true := by
          simpa [AnymailBase.exceptOk] using hr.symm
        simp [Bind.bind, Except.bind, AnymailBase.exceptOk, hxf, this]
      | ok s2 =>
        rw [he2] at hr
        have : AnymailBase.hasUnserializableFields rest = false := by
          simpa [AnymailBase.exceptOk] using hr.symm
        simp [Bind.bind, Except.bind, pure, Except.pure, AnymailBase.exceptOk, hxf, this]

end

/-- C8: serialize_payload returns the JSON encoding whenever every value
of the payload is representable, and when the payload contains a value
the encoder cannot represent it raises AnymailSerializationError carrying
the original encoding error together with the message and the payload —
the raw encoding exception never reaches the caller. -/
theorem c8_serialize_payload_contract (payload : AnymailBase.PyJson) (message : String) :
    (AnymailBase.hasUnserializable payload = false →
      ∃ s, AnymailBase.dumps payload = .ok s ∧
        AnymailBase.serialize_payload payload message = .ok s) ∧
    (AnymailBase.hasUnserializable payload = true →
      ∃ e : AnymailBase.AnymailSerializationError,
        AnymailBase.serialize_payload payload message = .error e ∧
        AnymailBase.dumps payload = .error e.orig_err ∧
        e.email_message = message ∧ e.payload = payload) := by
  constructor
  · intro hno
    have h := AnymailBase.dumps_exceptOk payload
    rw [hno] at h
    cases hd : AnymailBase.dumps payload with
    | error e =>
      rw [hd] at h
      exact absurd h (by simp [AnymailBase.exceptOk])
    | ok s =>
      refine ⟨s, rfl, ?_⟩
      unfold AnymailBase.serialize_payload
      rw [hd]
  · intro hyes
    have h := AnymailBase.dumps_exceptOk payload
    rw [hyes] at h
    cases hd : AnymailBase.dumps payload with
    | ok s =>
      rw [hd] at h
      exact absurd h (by simp [AnymailBase.exceptOk])
    | error err =>
      refine ⟨⟨err, message, payload⟩, ?_, rfl, rfl, rfl⟩
      unfold AnymailBase.serialize_payload
      rw [hd]

/-- concrete runs of `c8_serialize_payload_contract`: a clean payload
serializes, a payload holding a datetime raises a SerializationError
wrapping the TypeError. -/
theorem c8_serialize_payload_contract_witness :
    (∃ s, AnymailBase.dumps (.obj [("Subject", .str "hi")]) = .ok s ∧
      AnymailBase.serialize_payload (.obj [("Subject", .str "hi")]) "message" = .ok s) ∧
    (∃ e : AnymailBase.AnymailSerializationError,
      AnymailBase.serialize_payload
          (.obj [("send_at", .unserializable "datetime.datetime")]) "message" = .error e ∧
      AnymailBase.dumps (.obj [("send_at", .unserializable "datetime.datetime")])
          = .error e.orig_err ∧
      e.email_message = "message" ∧
      e.payload = .obj [("send_at", .unserializable "datetime.datetime")]) :=
  ⟨(c8_serialize_payload_contract (.obj [("Subject", .str "hi")]) "message").1 rfl,
   (c8_serialize_payload_contract
      (.obj [("send_at", .unserializable "datetime.datetime")]) "message").2 rfl⟩

/-- when merge_data is present and there is more than one `to` recipient,
`serialize_data` fans out to one `data_for_recipient` body per recipient
in `to_emails` order, on one of the two batch endpoints (templates or
plain, depending on the data). -/
theorem Postmark.serialize_batch_shape (p : Postmark.PostmarkPayload)
    (hmd : p.merge_data.isSome = true) (hlen : 1 < p.to_emails.length) :
    p.serialize_data = .messages (p.to_emails.map p.data_for_recipient) ∨
    p.serialize_data = .batch (p.to_emails.map p.data_for_recipient) := by
  have hbatch : (p.merge_data.isSome && decide (p.to_emails.length > 1)) = true := by
    rw [hmd]
    simpa using hlen
  have hep : p.get_api_endpoint = "email/batchWithTemplates" ∨
      p.get_api_endpoint = "email/batch" := by
    unfold Postmark.PostmarkPayload.get_api_endpoint
    rw [hbatch]
    cases hc : ((p.data.lookup "TemplateId").isSome || (p.data.lookup "TemplateModel").isSome) with
    | true => left; simp
    | false => right; simp
  rcases hep with he | he
  · left
    unfold Postmark.PostmarkPayload.serialize_data
    rw [he, if_pos rfl]
  · right
    unfold Postmark.PostmarkPayload.serialize_data
    rw [he, if_neg (by decide), if_pos rfl]

/-- fields of one fanned-out request body: "To" holds the recipient's
address, and "TemplateModel" holds the recipient's merge_data entry
shallow-merged over the merge_global_data when merge_data is truthy and
names the recipient, else exactly the merge_global_data (absent when none
was set). -/
theorem Postmark.data_for_recipient_fields (base : List (String × Postmark.PMVal))
    (global : Option (List (String × String)))
    (md : List (String × List (String × String)))
    (tos : List Postmark.ToEmail) (recip : Postmark.ToEmail)
    (hbase : base.lookup "TemplateModel" = none)
    (hnd : ∀ pair ∈ md, (pair.2.map Prod.fst).Nodup) :
    ((Postmark.mkPostmarkPayload base global (some md) tos).data_for_recipient
        recip).lookup "To" = some (.str recip.address) ∧
    ((Postmark.mkPostmarkPayload base global (some md) tos).data_for_recipient
        recip).lookup "TemplateModel"
      = (if md ≠ [] ∧ (md.lookup recip.addr_spec).isSome then
          some (.dict (Anymail.dictUpdate (global.getD [])
            ((md.lookup recip.addr_spec).getD [])))
        else global.map Postmark.PMVal.dict) := by
  have hTMTo : ("TemplateModel" : String) ≠ "To" := by decide
  have hToTM : ("To" : String) ≠ "TemplateModel" := by decide
  cases global with
  | some g =>
    have hTM : (Anymail.dictSet (Anymail.dictSet base "TemplateModel" (.dict g))
        "To" (.str recip.address)).lookup "TemplateModel" = some (.dict g) := by
      rw [Anymail.dictSet_lookup_ne _ _ _ _ hTMTo, Anymail.dictSet_lookup_self]
    by_cases hcond : md ≠ [] ∧ (md.lookup recip.addr_spec).isSome
    · have hdfr : (Postmark.mkPostmarkPayload base (some g) (some md) tos).data_for_recipient
          recip
          = Anymail.dictSet
              (Anymail.dictSet (Anymail.dictSet base "TemplateModel" (.dict g))
                "To" (.str recip.address))
              "TemplateModel"
              (.dict (Anymail.dictUpdate g ((md.lookup recip.addr_spec).getD []))) := by
        simp only [Postmark.mkPostmarkPayload, Postmark.PostmarkPayload.data_for_recipient]
        rw [if_pos hcond, hTM]
      rw [hdfr, if_pos hcond]
      refine ⟨?_, ?_⟩
      · rw [Anymail.dictSet_lookup_ne _ _ _ _ hToTM,
          Anymail.dictSet_lookup_self]
      · rw [Anymail.dictSet_lookup_self]
        rfl
    · have hdfr : (Postmark.mkPostmarkPayload base (some g) (some md) tos).data_for_recipient
          recip
          = Anymail.dictSet (Anymail.dictSet base "TemplateModel" (.dict g))
              "To" (.str recip.address) := by
        simp only [Postmark.mkPostmarkPayload, Postmark.PostmarkPayload.data_for_recipient]
        rw [if_neg hcond]
      rw [hdfr, if_neg hcond]
      refine ⟨Anymail.dictSet_lookup_self _ _ _, ?_⟩
      rw [Anymail.dictSet_lookup_ne _ _ _ _ hTMTo, Anymail.dictSet_lookup_self]
      rfl
  | none =>
    have hTM : (Anymail.dictSet base "To" (.str recip.address)).lookup "TemplateModel"
        = none := by
      rw [Anymail.dictSet_lookup_ne _ _ _ _ hTMTo, hbase]
    by_cases hcond : md ≠ [] ∧ (md.lookup recip.addr_spec).isSome
    · obtain ⟨v, hv⟩ := Option.isSome_iff_exists.mp hcond.2
      have hvnd : (v.map Prod.fst).Nodup := hnd _ (Anymail.lookup_mem hv)
      have hdfr : (Postmark.mkPostmarkPayload base none (some md) tos).data_for_recipient
          recip
          = Anymail.dictSet (Anymail.dictSet base "To" (.str recip.address))
              "TemplateModel" (.dict ((md.lookup recip.addr_spec).getD [])) := by
        simp only [Postmark.mkPostmarkPayload, Postmark.PostmarkPayload.data_for_recipient]
        rw [if_pos hcond, hTM]
      rw [hdfr, if_pos hcond]
      refine ⟨?_, ?_⟩
      · rw [Anymail.dictSet_lookup_ne _ _ _ _ hToTM, Anymail.dictSet_lookup_self]
      · rw [Anymail.dictSet_lookup_self, hv]
        have hupd : Anymail.dictUpdate [] v = v := Anymail.dictUpdate_nil_of_nodup v hvnd
        simp only [Option.getD_some, Option.getD_none, hupd]
    · have hdfr : (Postmark.mkPostmarkPayload base none (some md) tos).data_for_recipient
          recip
          = Anymail.dictSet base "To" (.str recip.address) := by
        simp only [Postmark.mkPostmarkPayload, Postmark.PostmarkPayload.data_for_recipient]
        rw [if_neg hcond]
      rw [hdfr, if_neg hcond]
      exact ⟨Anymail.dictSet_lookup_self _ _ _, by rw [hTM]; rfl⟩

/-- a Postmark payload with merge_global_data, a single `to` recipient,
and a merge_data entry for exactly that recipient. -/
def c1Payload : Postmark.PostmarkPayload :=
  Postmark.mkPostmarkPayload [] (some [("g", "1")])
    (some [("one@example.com", [("k", "v")])])
    [⟨"one@example.com", "one@example.com"⟩]

/-- refutation of C1 as stated: for a message whose merge_data is present
and names its sole `to` recipient, the Postmark payload serializes the
single non-batch body whose TemplateModel is the merge_global_data alone
— the recipient's merge_data entry ("k" ↦ "v") is dropped instead of
being shallow-merged over the global data, because batch fan-out only
triggers with more than one `to` recipient. -/
theorem c1_counterexample :
    c1Payload.merge_data.isSome = true ∧
    c1Payload.serialize_data = .single [("TemplateModel", .dict [("g", "1")])] ∧
    Anymail.dictUpdate [("g", "1")] [("k", "v")] = [("g", "1"), ("k", "v")] ∧
    ([("TemplateModel", Postmark.PMVal.dict [("g", "1")])].lookup "TemplateModel"
      ≠ some (Postmark.PMVal.dict [("g", "1"), ("k", "v")])) := by
  decide

/-- C1 (amended): for every message whose merge_data attribute is present
(even as an empty map) and that has more than one `to` recipient, the
Postmark payload builds one request-body entry per `to` recipient, in
`to`-list order, where each entry's To is that recipient's address and
its TemplateModel equals merge_global_data shallow-merged with that
recipient's merge_data entry (global keys first, per-recipient keys
override); a recipient absent from merge_data (or any recipient when
merge_data is empty) gets only the global data, and any merge_data key
that is not an actual `to` recipient is silently omitted without
raising. -/
theorem c1_amended_postmark_fanout (base : List (String × Postmark.PMVal))
    (global : Option (List (String × String)))
    (md : List (String × List (String × String)))
    (tos : List Postmark.ToEmail)
    (hbase : base.lookup "TemplateModel" = none)
    (hnd : ∀ pair ∈ md, (pair.2.map Prod.fst).Nodup)
    (hlen : 1 < tos.length) :
    ∃ msgs : List (List (String × Postmark.PMVal)),
      ((Postmark.mkPostmarkPayload base global (some md) tos).serialize_data
          = .messages msgs ∨
        (Postmark.mkPostmarkPayload base global (some md) tos).serialize_data
          = .batch msgs) ∧
      msgs.length = tos.length ∧
      ∀ i : Fin tos.length, ∃ hi : i.val < msgs.length,
        (msgs.get ⟨i.val, hi⟩).lookup "To" = some (.str (tos.get i).address) ∧
        (msgs.get ⟨i.val, hi⟩).lookup "TemplateModel"
          = (if md ≠ [] ∧ (md.lookup (tos.get i).addr_spec).isSome then
              some (.dict (Anymail.dictUpdate (global.getD [])
                ((md.lookup (tos.get i).addr_spec).getD [])))
            else global.map Postmark.PMVal.dict) := by
  have hmd : (Postmark.mkPostmarkPayload base global (some md) tos).merge_data.isSome
      = true := rfl
  have hlen2 : 1 < (Postmark.mkPostmarkPayload base global (some md) tos).to_emails.length :=
    hlen
  refine ⟨tos.map ((Postmark.mkPostmarkPayload base global (some md) tos).data_for_recipient),
    Postmark.serialize_batch_shape _ hmd hlen2, List.length_map _ _, ?_⟩
  intro i
  have hi : i.val
      < (tos.map
          ((Postmark.mkPostmarkPayload base global (some md) tos).data_for_recipient)).length := by
    rw [List.length_map]
    exact i.isLt
  refine ⟨hi, ?_⟩
  have hget : (tos.map
        ((Postmark.mkPostmarkPayload base global (some md) tos).data_for_recipient)).get
          ⟨i.val, hi⟩
      = (Postmark.mkPostmarkPayload base global (some md) tos).data_for_recipient
          (tos.get i) := by
    rw [List.get_eq_getElem, List.get_eq_getElem, List.getElem_map]
  rw [hget]
  exact Postmark.data_for_recipient_fields base global md tos (tos.get i) hbase hnd

/-- concrete run of `c1_amended_postmark_fanout` on two recipients, the
first named in merge_data, the second absent, plus one merge_data key
("stray@q.com") that is not a recipient and is silently omitted. -/
theorem c1_amended_postmark_fanout_witness :
    ∃ msgs : List (List (String × Postmark.PMVal)),
      ((Postmark.mkPostmarkPayload [] (some [("g", "1")])
          (some [("one@example.com", [("k", "v")]), ("stray@q.com", [("z", "9")])])
          [⟨"one@example.com", "one@example.com"⟩,
           ⟨"Two <two@example.com>", "two@example.com"⟩]).serialize_data
          = .messages msgs ∨
        (Postmark.mkPostmarkPayload [] (some [("g", "1")])
          (some [("one@example.com", [("k", "v")]), ("stray@q.com", [("z", "9")])])
          [⟨"one@example.com", "one@example.com"⟩,
           ⟨"Two <two@example.com>", "two@example.com"⟩]).serialize_data
          = .batch msgs) ∧
      msgs.length
        = ([⟨"one@example.com", "one@example.com"⟩,
            ⟨"Two <two@example.com>", "two@example.com"⟩] :
              List Postmark.ToEmail).length ∧
      ∀ i : Fin ([⟨"one@example.com", "one@example.com"⟩,
            ⟨"Two <two@example.com>", "two@example.com"⟩] :
              List Postmark.ToEmail).length,
        ∃ hi : i.val < msgs.length,
        (msgs.get ⟨i.val, hi⟩).lookup "To"
          = some (.str (([⟨"one@example.com", "one@example.com"⟩,
              ⟨"Two <two@example.com>", "two@example.com"⟩] :
                List Postmark.ToEmail).get i).address) ∧
        (msgs.get ⟨i.val, hi⟩).lookup "TemplateModel"
          = (if ([("one@example.com", [("k", "v")]), ("stray@q.com", [("z", "9")])] :
                  List (String × List (String × String))) ≠ [] ∧
                (([("one@example.com", [("k", "v")]), ("stray@q.com", [("z", "9")])] :
                  List (String × List (String × String))).lookup
                  (([⟨"one@example.com", "one@example.com"⟩,
                     ⟨"Two <two@example.com>", "two@example.com"⟩] :
                      List Postmark.ToEmail).get i).addr_spec).isSome then
              some (.dict (Anymail.dictUpdate ((some [("g", "1")]).getD [])
                ((([("one@example.com", [("k", "v")]), ("stray@q.com", [("z", "9")])] :
                  List (String × List (String × String))).lookup
                  (([⟨"one@example.com", "one@example.com"⟩,
                     ⟨"Two <two@example.com>", "two@example.com"⟩] :
                      List Postmark.ToEmail).get i).addr_spec).getD [])))
            else (some [("g", "1")]).map Postmark.PMVal.dict) :=
  c1_amended_postmark_fanout [] (some [("g", "1")])
    [("one@example.com", [("k", "v")]), ("stray@q.com", [("z", "9")])]
    [⟨"one@example.com", "one@example.com"⟩,
     ⟨"Two <two@example.com>", "two@example.com"⟩]
    rfl (by decide) (by decide)

